import Mathlib

/-!
Formal model of the Blender-NGP addon (`blender_addon/__init__.py`).

The addon has three operators:
  * `BNGP_OT_ExecCamGeneration.execute` — spherical camera placement around
    the active target object;
  * `BNGP_OT_ExecCamClear.execute` — removal of generated cameras and
    collections by name prefix;
  * `BNGP_OT_ExecRender.execute` — batch rendering plus a `transforms.json`
    manifest.

Host (Blender) scene state is modelled explicitly: positions and angles are
real numbers, the scene is a record of named objects plus renderer settings,
and each operator is a pure function from inputs and scene state to a result
that also records its observable effects (render calls, written files,
created directories, user reports).
-/

/-- The fixed name tag of the addon (Python constant `PREFIX = 'BNGP'`). -/
def PREFIX : String := "BNGP"

/-- A 3D vector (`mathutils.Vector` of length 3). -/
structure Vec3 where
  x : ℝ
  y : ℝ
  z : ℝ

/-- Componentwise scaling `v * s` (mathutils `Vector * float`). -/
noncomputable def Vec3.smul (v : Vec3) (s : ℝ) : Vec3 :=
  ⟨v.x * s, v.y * s, v.z * s⟩

/-- Componentwise addition `a + b`. -/
noncomputable def Vec3.add (a b : Vec3) : Vec3 :=
  ⟨a.x + b.x, a.y + b.y, a.z + b.z⟩

/-- Euclidean distance between two points. -/
noncomputable def Vec3.dist (a b : Vec3) : ℝ :=
  Real.sqrt ((a.x - b.x) ^ 2 + (a.y - b.y) ^ 2 + (a.z - b.z) ^ 2)

/-- Degrees to radians (Python `math.radians`). -/
noncomputable def radians (deg : ℝ) : ℝ :=
  deg * Real.pi / 180

/-- Python format `f'{n:03}'`: the decimal digits of `n`, zero-padded on the
left to a minimum width of 3. -/
def pad3 (n : ℕ) : String :=
  let s := toString n
  if s.length < 3 then String.mk (List.replicate (3 - s.length) '0') ++ s else s

/-- The generated camera name `f'{PREFIX}__cam_{c_idx:03}'`. -/
def camName (c : ℕ) : String :=
  PREFIX ++ "__cam_" ++ pad3 c

/-- Azimuth of camera `c`: `phi = 2.0 * PI * holi_idx / n_cams_holi` with
`holi_idx = c_idx % n_cams_holi`. -/
noncomputable def camPhi (H c : ℕ) : ℝ :=
  2 * Real.pi * ((c % H : ℕ) : ℝ) / (H : ℝ)

/-- Elevation of camera `c`: `theta = PI * (vert_idx + 1) / (n_cams_vert + 1)`
with `vert_idx = c_idx // n_cams_holi`. -/
noncomputable def camTheta (H V c : ℕ) : ℝ :=
  Real.pi * (((c / H : ℕ) : ℝ) + 1) / ((V : ℝ) + 1)

/-- The unit direction `[sin(theta) * cos(phi), sin(theta) * sin(phi),
cos(theta)]` used for `unit_loc`. -/
noncomputable def unitLoc (t p : ℝ) : Vec3 :=
  ⟨Real.sin t * Real.cos p, Real.sin t * Real.sin p, Real.cos t⟩

/-- Camera location `unit_loc * self.cam_dist + center_pos`. -/
noncomputable def camLocation (H V : ℕ) (d : ℝ) (center : Vec3) (c : ℕ) : Vec3 :=
  ((unitLoc (camTheta H V c) (camPhi H c)).smul d).add center

/-- A generated camera pose: object name, ring indices, location, and the
camera data's FOV angle in radians (`cam_obj.data.angle`). -/
structure CamPose where
  name : String
  holi_idx : ℕ
  vert_idx : ℕ
  location : Vec3
  angle : ℝ

/-- The camera-creation loop of `BNGP_OT_ExecCamGeneration.execute`:
`n_cams = n_cams_vert * n_cams_holi` poses, indexed by `c_idx`. -/
noncomputable def genCameras (H V : ℕ) (d fov : ℝ) (center : Vec3) : List CamPose :=
  (List.range (V * H)).map (fun c =>
    { name := camName c
      holi_idx := c % H
      vert_idx := c / H
      location := camLocation H V d center c
      angle := radians fov })

/-- The active target object whose `location` becomes the sphere center. -/
structure TgtObj where
  name : String
  location : Vec3

/-- What `BNGP_OT_ExecCamGeneration.execute` creates: the collection
`f'{PREFIX}__cam_coll'` and the cameras linked into it. -/
structure GenResult where
  coll_name : String
  cams : List CamPose

/-- `BNGP_OT_ExecCamGeneration.execute`: `assert(tgt_obj)` aborts the
operation when no active object exists (`none`: nothing is created);
otherwise the collection and all cameras are created around the target's
location. -/
noncomputable def execCamGeneration (tgt : Option TgtObj) (H V : ℕ) (d fov : ℝ) :
    Option GenResult :=
  match tgt with
  | none => none
  | some t => some { coll_name := PREFIX ++ "__cam_coll"
                     cams := genCameras H V d fov t.location }

theorem genCameras_length (H V : ℕ) (d fov : ℝ) (center : Vec3) :
    (genCameras H V d fov center).length = V * H := by
  simp [genCameras]

theorem genCameras_get (H V : ℕ) (d fov : ℝ) (center : Vec3) (i : ℕ)
    (hi : i < (genCameras H V d fov center).length) :
    (genCameras H V d fov center).get ⟨i, hi⟩ =
      { name := camName i
        holi_idx := i % H
        vert_idx := i / H
        location := camLocation H V d center i
        angle := radians fov } := by
  simp [genCameras]

theorem dist_camLocation (H V : ℕ) (d : ℝ) (hd : 0 ≤ d) (center : Vec3) (c : ℕ) :
    Vec3.dist (camLocation H V d center c) center = d := by
  unfold camLocation Vec3.dist Vec3.add Vec3.smul unitLoc
  have key : (Real.sin (camTheta H V c) * Real.cos (camPhi H c) * d + center.x - center.x) ^ 2 +
      (Real.sin (camTheta H V c) * Real.sin (camPhi H c) * d + center.y - center.y) ^ 2 +
      (Real.cos (camTheta H V c) * d + center.z - center.z) ^ 2 = d ^ 2 := by
    have h1 := Real.sin_sq_add_cos_sq (camTheta H V c)
    have h2 := Real.sin_sq_add_cos_sq (camPhi H c)
    linear_combination d ^ 2 * (Real.sin (camTheta H V c)) ^ 2 * h2 + d ^ 2 * h1
  rw [key, Real.sqrt_sq hd]

/-- Python `str.startswith`: the candidate is a prefix of the string. -/
def startswith (s p : String) : Bool :=
  p.data.isPrefixOf s.data

/-- A value with a Blender datablock name (`obj.name`). -/
class Named (A : Type) where
  name : A → String

/-- The name of a datablock. -/
def objName {A : Type} [Named A] (o : A) : String :=
  Named.name o

/-- `collect_by_name_prefix(data_coll, prefix)`: the datablocks whose name
starts with the given text, in collection order. -/
def collect_by_name_pfx {A : Type} [Named A] (data_coll : List A) (pfx : String) :
    List A :=
  data_coll.filter (fun o => startswith (objName o) pfx)

/-- `data_coll.remove(obj)`: removal of the datablock carrying a name. -/
def removeObj {A : Type} [Named A] (data_coll : List A) (nm : String) : List A :=
  data_coll.filter (fun o => objName o != nm)

/-- `remove_by_name_prefix(data_coll, prefix)`: each collected datablock is
removed; the host call `remove(obj, do_unlink=True)` may raise (modelled by
the oracle `unlinkFails`), in which case the bare `remove(obj)` fallback of
the `except` branch runs instead. -/
def remove_by_name_pfx {A : Type} [Named A] (unlinkFails : String → Bool)
    (data_coll : List A) (pfx : String) : List A :=
  (collect_by_name_pfx data_coll pfx).foldl
    (fun acc obj =>
      if unlinkFails (objName obj) then removeObj acc (objName obj)
      else removeObj acc (objName obj))
    data_coll

/-- A named datablock in `bpy.data.cameras` or `bpy.data.collections`. -/
structure DataItem where
  name : String
deriving DecidableEq

instance : Named DataItem :=
  ⟨DataItem.name⟩

/-- The datablock state touched by `BNGP_OT_ExecCamClear`. -/
structure BlendData where
  cameras : List DataItem
  collections : List DataItem
deriving DecidableEq

/-- `BNGP_OT_ExecCamClear.execute`: removes cameras and collections whose
name starts with `PREFIX`. -/
def execCamClear (f g : String → Bool) (d : BlendData) : BlendData :=
  { cameras := remove_by_name_pfx f d.cameras PREFIX
    collections := remove_by_name_pfx g d.collections PREFIX }

/-- `os.path.join` for a relative second component. -/
def pathJoin (a b : String) : String :=
  if a.data.getLast? = some '/' then a ++ b else a ++ "/" ++ b

/-- A 4x4 world-transform matrix (`obj.matrix_world`). -/
def Mat4 : Type :=
  Fin 4 → Fin 4 → ℝ

/-- A camera object in `bpy.data.objects`: name, world transform, and the
camera data's FOV angle (`data.angle`, radians). -/
structure SceneObj where
  name : String
  matrix_world : Mat4
  angle : ℝ

instance : Named SceneObj :=
  ⟨SceneObj.name⟩

/-- The renderer settings mutated by `BNGP_OT_ExecRender.execute`. -/
structure RenderSettings where
  resolution_x : ℕ
  resolution_y : ℕ
  file_format : String
  color_mode : String
  color_depth : String
  film_transparent : Bool
  filepath : String

/-- The host scene: objects, the active camera (`context.scene.camera`,
by name), and renderer settings. -/
structure Scene where
  objects : List SceneObj
  camera : Option String
  render : RenderSettings

/-- One manifest entry: image path and the camera's world transform. -/
structure Frame where
  file_path : String
  transform_matrix : Mat4

/-- The `transforms.json` content. -/
structure Manifest where
  camera_angle_x : ℝ
  frames : List Frame

/-- One `bpy.ops.render.render(write_still=True)` call: the active camera
at that moment and the image file written. -/
structure RenderCall where
  cam_name : String
  filepath : String

/-- The accumulated result of the per-camera render loop. -/
structure LoopOut where
  scene : Scene
  renders : List RenderCall
  frames : List Frame

/-- The `for cam_obj in cam_objs` loop of `BNGP_OT_ExecRender.execute`:
set the active camera, set the output filepath, append the frame entry,
then render one image. -/
def renderLoop (out : String) : List SceneObj → Scene → LoopOut
  | [], st => ⟨st, [], []⟩
  | cam :: rest, st =>
      let fp := pathJoin out (cam.name ++ ".png")
      let st1 : Scene :=
        { st with camera := some cam.name
                  render := { st.render with filepath := fp } }
      let fr : Frame := ⟨pathJoin "./" (cam.name ++ ".png"), cam.matrix_world⟩
      let rest_out := renderLoop out rest st1
      ⟨rest_out.scene, ⟨cam.name, fp⟩ :: rest_out.renders, fr :: rest_out.frames⟩

/-- Everything observable about one `BNGP_OT_ExecRender.execute` run. -/
structure RenderOutcome where
  status : String
  reports : List (String × String)
  created_dirs : List String
  renders : List RenderCall
  written_files : List String
  manifest : Option Manifest
  scene : Scene

/-- `BNGP_OT_ExecRender.execute`: collect the `f'{PREFIX}__cam'`-named
objects; with none, report and cancel before any other step; otherwise set
the renderer, create the output directory (`tempfile.mkdtemp`, modelled by
the fresh name `out`), render each camera, and write `transforms.json`. -/
noncomputable def execRender (fov : ℝ) (w h : ℕ) (out : String) (st : Scene) :
    RenderOutcome :=
  let cam_objs := collect_by_name_pfx st.objects (PREFIX ++ "__cam")
  if cam_objs.length = 0 then
    { status := "CANCELED"
      reports := [("ERROR", "No camera objects found")]
      created_dirs := []
      renders := []
      written_files := []
      manifest := none
      scene := st }
  else
    let st1 : Scene :=
      { st with render := { st.render with
          resolution_x := w
          resolution_y := h
          file_format := "PNG"
          color_mode := "RGBA"
          color_depth := "8"
          film_transparent := true } }
    let lo := renderLoop out cam_objs st1
    { status := "FINISHED"
      reports := [("INFO", "Output directory: " ++ out)]
      created_dirs := [out]
      renders := lo.renders
      written_files := lo.renders.map (fun r => r.filepath) ++ [pathJoin out "transforms.json"]
      manifest := some { camera_angle_x := radians fov, frames := lo.frames }
      scene := lo.scene }

/-- A scene with every camera's stored FOV angle rewritten by `g` and
everything else unchanged. -/
def mapAngles (g : ℝ → ℝ) (st : Scene) : Scene :=
  { st with objects := st.objects.map (fun o => { o with angle := g o.angle }) }

theorem foldl_removeObj {A : Type} [Named A] (F : String → Bool)
    (objs coll : List A) :
    objs.foldl
      (fun acc obj =>
        if F (objName obj) then removeObj acc (objName obj)
        else removeObj acc (objName obj))
      coll
      = coll.filter (fun o => objs.all (fun obj => objName o != objName obj)) := by
  induction objs generalizing coll with
  | nil => simp
  | cons obj rest ih =>
      simp only [ite_self] at ih ⊢
      simp only [List.foldl_cons, List.all_cons]
      rw [ih]
      unfold removeObj
      rw [List.filter_filter]
      apply List.filter_congr
      intro o _
      rw [Bool.and_comm]

theorem remove_by_name_pfx_eq {A : Type} [Named A] (F : String → Bool)
    (coll : List A) (pfx : String) :
    remove_by_name_pfx F coll pfx
      = coll.filter (fun o => !(startswith (objName o) pfx)) := by
  unfold remove_by_name_pfx
  rw [foldl_removeObj]
  apply List.filter_congr
  intro o ho
  cases h : startswith (objName o) pfx with
  | true =>
      simp only [Bool.not_true]
      apply List.all_eq_false.mpr
      refine ⟨o, List.mem_filter.mpr ⟨ho, h⟩, ?_⟩
      simp
  | false =>
      simp only [Bool.not_false]
      apply List.all_eq_true.mpr
      intro obj hobj
      have hmem := List.mem_filter.mp hobj
      simp only [bne_iff_ne, ne_eq]
      intro heq
      rw [heq] at h
      rw [hmem.2] at h
      exact Bool.noConfusion h

theorem renderLoop_objects (out : String) (cams : List SceneObj) (st : Scene) :
    (renderLoop out cams st).scene.objects = st.objects := by
  induction cams generalizing st with
  | nil => rfl
  | cons c rest ih =>
      simp only [renderLoop]
      exact ih _

theorem renderLoop_renders (out : String) (cams : List SceneObj) (st : Scene) :
    (renderLoop out cams st).renders
      = cams.map (fun o => ⟨o.name, pathJoin out (o.name ++ ".png")⟩) := by
  induction cams generalizing st with
  | nil => rfl
  | cons c rest ih =>
      simp only [renderLoop, List.map_cons]
      rw [ih]

theorem renderLoop_frames (out : String) (cams : List SceneObj) (st : Scene) :
    (renderLoop out cams st).frames
      = cams.map (fun o => ⟨pathJoin "./" (o.name ++ ".png"), o.matrix_world⟩) := by
  induction cams generalizing st with
  | nil => rfl
  | cons c rest ih =>
      simp only [renderLoop, List.map_cons]
      rw [ih]

/-- The scene after one loop iteration for camera `c`. -/
def stepScene (out : String) (c : SceneObj) (st : Scene) : Scene :=
  { st with camera := some c.name
            render := { st.render with filepath := pathJoin out (c.name ++ ".png") } }

theorem renderLoop_cons (out : String) (c : SceneObj) (rest : List SceneObj)
    (st : Scene) :
    renderLoop out (c :: rest) st =
      ⟨(renderLoop out rest (stepScene out c st)).scene,
       ⟨c.name, pathJoin out (c.name ++ ".png")⟩ ::
         (renderLoop out rest (stepScene out c st)).renders,
       ⟨pathJoin "./" (c.name ++ ".png"), c.matrix_world⟩ ::
         (renderLoop out rest (stepScene out c st)).frames⟩ :=
  rfl

theorem renderLoop_camera (out : String) (cams : List SceneObj) (st : Scene)
    (h : cams ≠ []) :
    (renderLoop out cams st).scene.camera = some (cams.getLast h).name := by
  induction cams generalizing st with
  | nil => exact absurd rfl h
  | cons c rest ih =>
      cases rest with
      | nil => simp [renderLoop, List.getLast]
      | cons c2 rest2 =>
          rw [List.getLast_cons (List.cons_ne_nil c2 rest2), renderLoop_cons]
          exact ih _ (List.cons_ne_nil c2 rest2)

theorem objName_sceneObj (o : SceneObj) : objName o = o.name :=
  rfl

theorem objName_dataItem (o : DataItem) : objName o = o.name :=
  rfl

theorem execRender_empty (fov : ℝ) (w h : ℕ) (out : String) (st : Scene)
    (hc : collect_by_name_pfx st.objects (PREFIX ++ "__cam") = []) :
    execRender fov w h out st =
      ⟨"CANCELED", [("ERROR", "No camera objects found")], [], [], [], none, st⟩ := by
  simp only [execRender, hc]
  rfl

theorem execRender_status_pos (fov : ℝ) (w h : ℕ) (out : String) (st : Scene)
    (hc : collect_by_name_pfx st.objects (PREFIX ++ "__cam") ≠ []) :
    (execRender fov w h out st).status = "FINISHED" := by
  have hlen : ¬ ((collect_by_name_pfx st.objects (PREFIX ++ "__cam")).length = 0) :=
    fun h0 => hc (List.length_eq_zero.mp h0)
  simp only [execRender, if_neg hlen]

theorem execRender_renders_pos (fov : ℝ) (w h : ℕ) (out : String) (st : Scene)
    (hc : collect_by_name_pfx st.objects (PREFIX ++ "__cam") ≠ []) :
    (execRender fov w h out st).renders
      = (collect_by_name_pfx st.objects (PREFIX ++ "__cam")).map
          (fun o => ⟨o.name, pathJoin out (o.name ++ ".png")⟩) := by
  have hlen : ¬ ((collect_by_name_pfx st.objects (PREFIX ++ "__cam")).length = 0) :=
    fun h0 => hc (List.length_eq_zero.mp h0)
  simp only [execRender, if_neg hlen]
  exact renderLoop_renders _ _ _

theorem execRender_manifest_pos (fov : ℝ) (w h : ℕ) (out : String) (st : Scene)
    (hc : collect_by_name_pfx st.objects (PREFIX ++ "__cam") ≠ []) :
    (execRender fov w h out st).manifest
      = some ⟨radians fov,
          (collect_by_name_pfx st.objects (PREFIX ++ "__cam")).map
            (fun o => ⟨pathJoin "./" (o.name ++ ".png"), o.matrix_world⟩)⟩ := by
  have hlen : ¬ ((collect_by_name_pfx st.objects (PREFIX ++ "__cam")).length = 0) :=
    fun h0 => hc (List.length_eq_zero.mp h0)
  simp only [execRender, if_neg hlen]
  rw [renderLoop_frames]

theorem execRender_objects_pos (fov : ℝ) (w h : ℕ) (out : String) (st : Scene)
    (hc : collect_by_name_pfx st.objects (PREFIX ++ "__cam") ≠ []) :
    (execRender fov w h out st).scene.objects = st.objects := by
  have hlen : ¬ ((collect_by_name_pfx st.objects (PREFIX ++ "__cam")).length = 0) :=
    fun h0 => hc (List.length_eq_zero.mp h0)
  simp only [execRender, if_neg hlen]
  rw [renderLoop_objects]

theorem execRender_camera_pos (fov : ℝ) (w h : ℕ) (out : String) (st : Scene)
    (hc : collect_by_name_pfx st.objects (PREFIX ++ "__cam") ≠ []) :
    (execRender fov w h out st).scene.camera
      = some ((collect_by_name_pfx st.objects (PREFIX ++ "__cam")).getLast hc).name := by
  have hlen : ¬ ((collect_by_name_pfx st.objects (PREFIX ++ "__cam")).length = 0) :=
    fun h0 => hc (List.length_eq_zero.mp h0)
  simp only [execRender, if_neg hlen]
  exact renderLoop_camera _ _ _ hc

theorem startswith_camName (c : ℕ) :
    startswith (camName c) (PREFIX ++ "__cam") = true := by
  unfold startswith camName
  simp only [List.isPrefixOf_iff_prefix, String.data_append]
  exact (by decide : (PREFIX ++ "__cam").data <+: (PREFIX ++ "__cam_").data).trans
    (List.prefix_append _ ((pad3 c).data))

theorem three_le_pad3_length (n : ℕ) : 3 ≤ (pad3 n).length := by
  unfold pad3
  by_cases hlt : (toString n).length < 3
  · rw [if_pos hlt]
    simp only [String.length_append, String.length_mk, List.length_replicate]
    omega
  · rw [if_neg hlt]
    omega

theorem pad3_length_of_lt (n : ℕ) (hn : n < 1000) : (pad3 n).length = 3 := by
  have hts : toString n = Nat.repr n := rfl
  have hle : (toString n).length ≤ 3 := by
    rw [hts]
    exact Nat.repr_length n 3 (by norm_num) (by norm_num [hn])
  unfold pad3
  by_cases hlt : (toString n).length < 3
  · rw [if_pos hlt]
    simp only [String.length_append, String.length_mk, List.length_replicate]
    omega
  · rw [if_neg hlt]
    omega

/-- A scene holding exactly the `n` cameras a placement run created, in
creation (ring-major) order: camera `j` is named `camName j` and carries
world transform `M j` and stored FOV `a j`. -/
def mkGenScene (n : ℕ) (M : ℕ → Mat4) (a : ℕ → ℝ) (camsel : Option String)
    (rs : RenderSettings) : Scene :=
  { objects := (List.range n).map (fun j => ⟨camName j, M j, a j⟩)
    camera := camsel
    render := rs }

theorem collect_mkGenScene (n : ℕ) (M : ℕ → Mat4) (a : ℕ → ℝ)
    (camsel : Option String) (rs : RenderSettings) :
    collect_by_name_pfx (mkGenScene n M a camsel rs).objects (PREFIX ++ "__cam")
      = (mkGenScene n M a camsel rs).objects := by
  apply List.filter_eq_self.mpr
  intro o ho
  simp only [mkGenScene, List.mem_map, List.mem_range] at ho
  obtain ⟨j, _, rfl⟩ := ho
  exact startswith_camName j

/-- C1: for horizontal_count `H ≥ 1`, vertical_count `V ≥ 1`, distance
`d > 0` and any center, placement produces exactly `H * V` camera poses, and
every produced pose's position is `center + d * (sin t cos p, sin t sin p,
cos t)` (the definition `camLocation`), hence lies at Euclidean distance `d`
from the center. -/
theorem c1_placement_count_and_distance (H V : ℕ) (_hH : 1 ≤ H) (_hV : 1 ≤ V)
    (d : ℝ) (hd : 0 < d) (fov : ℝ) (center : Vec3) (i : ℕ)
    (hi : i < (genCameras H V d fov center).length) :
    (genCameras H V d fov center).length = H * V ∧
    ((genCameras H V d fov center).get ⟨i, hi⟩).location = camLocation H V d center i ∧
    Vec3.dist ((genCameras H V d fov center).get ⟨i, hi⟩).location center = d := by
  refine ⟨?_, ?_, ?_⟩
  · rw [genCameras_length, Nat.mul_comm]
  · rw [genCameras_get]
  · rw [genCameras_get]
    exact dist_camLocation H V d (le_of_lt hd) center i

theorem c1_placement_witness :
    ((1:ℕ) ≤ 2 ∧ (1:ℕ) ≤ 3 ∧ (0:ℝ) < 5 ∧
      1 < (genCameras 2 3 (5:ℝ) 40 ⟨0, 0, 0⟩).length) ∧
    ((genCameras 2 3 (5:ℝ) 40 ⟨0, 0, 0⟩).length = 2 * 3 ∧
      ((genCameras 2 3 (5:ℝ) 40 ⟨0, 0, 0⟩).get
          ⟨1, by rw [genCameras_length]; norm_num⟩).location
        = camLocation 2 3 5 ⟨0, 0, 0⟩ 1 ∧
      Vec3.dist ((genCameras 2 3 (5:ℝ) 40 ⟨0, 0, 0⟩).get
          ⟨1, by rw [genCameras_length]; norm_num⟩).location ⟨0, 0, 0⟩ = 5) :=
  ⟨⟨by decide, by decide, by norm_num, by rw [genCameras_length]; norm_num⟩,
    c1_placement_count_and_distance 2 3 (by decide) (by decide) 5 (by norm_num)
      40 ⟨0, 0, 0⟩ 1 (by rw [genCameras_length]; norm_num)⟩

/-- C4: for `H ≥ 1`, `V ≥ 1` and every camera index `c < V * H`, the
elevation `camTheta H V c = pi * (c / H + 1) / (V + 1)` lies strictly
between `0` and `pi`: no camera sits at the zenith or nadir pole. -/
theorem c4_pole_avoidance (H V c : ℕ) (hH : 1 ≤ H) (hV : 1 ≤ V)
    (hc : c < V * H) :
    0 < camTheta H V c ∧ camTheta H V c < Real.pi := by
  have hv : c / H < V := (Nat.div_lt_iff_lt_mul hH).mpr hc
  have hpi := Real.pi_pos
  have hden : (0:ℝ) < (V : ℝ) + 1 := by positivity
  unfold camTheta
  constructor
  · apply div_pos _ hden
    positivity
  · rw [div_lt_iff₀ hden]
    have hlt : ((c / H : ℕ) : ℝ) + 1 < (V : ℝ) + 1 := by
      have hltn : (c / H) + 1 < V + 1 := Nat.succ_lt_succ hv
      exact_mod_cast hltn
    nlinarith

theorem c4_pole_avoidance_witness :
    ((1:ℕ) ≤ 2 ∧ (1:ℕ) ≤ 3 ∧ 4 < 3 * 2) ∧
    (0 < camTheta 2 3 4 ∧ camTheta 2 3 4 < Real.pi) :=
  ⟨by decide, c4_pole_avoidance 2 3 4 (by decide) (by decide) (by decide)⟩

/-- C5: placement enumerates in ring-major order — pose `i` has
`holi_idx = i % H` and `vert_idx = i / H`; and in the concrete instance
`H = 4`, `V = 1`, `distance = 5`, `center = (0,0,0)` there are 4 poses, at
azimuths `0, pi/2, pi, 3pi/2`, all at elevation `pi/2` and at distance 5
from the origin. -/
theorem c5_ring_major_order (H V : ℕ) (d fov : ℝ) (center : Vec3) (i : ℕ)
    (hi : i < (genCameras H V d fov center).length) (j : ℕ)
    (hj : j < (genCameras 4 1 (5:ℝ) fov ⟨0, 0, 0⟩).length) :
    ((genCameras H V d fov center).get ⟨i, hi⟩).holi_idx = i % H ∧
    ((genCameras H V d fov center).get ⟨i, hi⟩).vert_idx = i / H ∧
    (genCameras 4 1 (5:ℝ) fov ⟨0, 0, 0⟩).length = 4 ∧
    camPhi 4 0 = 0 ∧ camPhi 4 1 = Real.pi / 2 ∧ camPhi 4 2 = Real.pi ∧
    camPhi 4 3 = 3 * Real.pi / 2 ∧
    camTheta 4 1 j = Real.pi / 2 ∧
    Vec3.dist ((genCameras 4 1 (5:ℝ) fov ⟨0, 0, 0⟩).get ⟨j, hj⟩).location
      ⟨0, 0, 0⟩ = 5 := by
  have hj4 : j < 4 := by
    rw [genCameras_length] at hj
    omega
  refine ⟨?_, ?_, ?_, ?_, ?_, ?_, ?_, ?_, ?_⟩
  · rw [genCameras_get]
  · rw [genCameras_get]
  · rw [genCameras_length]
  · unfold camPhi
    norm_num
  · unfold camPhi
    norm_num
    ring
  · unfold camPhi
    norm_num
    ring
  · unfold camPhi
    norm_num
    ring
  · unfold camTheta
    rw [Nat.div_eq_of_lt hj4]
    norm_num
  · rw [genCameras_get]
    exact dist_camLocation 4 1 5 (by norm_num) ⟨0, 0, 0⟩ j

theorem c5_ring_major_witness :
    (2 < (genCameras 4 1 (5:ℝ) 40 ⟨0, 0, 0⟩).length ∧
      3 < (genCameras 4 1 (5:ℝ) 40 ⟨0, 0, 0⟩).length) ∧
    (((genCameras 4 1 (5:ℝ) 40 ⟨0, 0, 0⟩).get
        ⟨2, by rw [genCameras_length]; norm_num⟩).holi_idx = 2 % 4 ∧
      ((genCameras 4 1 (5:ℝ) 40 ⟨0, 0, 0⟩).get
        ⟨2, by rw [genCameras_length]; norm_num⟩).vert_idx = 2 / 4 ∧
      (genCameras 4 1 (5:ℝ) 40 ⟨0, 0, 0⟩).length = 4 ∧
      camPhi 4 0 = 0 ∧ camPhi 4 1 = Real.pi / 2 ∧ camPhi 4 2 = Real.pi ∧
      camPhi 4 3 = 3 * Real.pi / 2 ∧
      camTheta 4 1 3 = Real.pi / 2 ∧
      Vec3.dist ((genCameras 4 1 (5:ℝ) 40 ⟨0, 0, 0⟩).get
        ⟨3, by rw [genCameras_length]; norm_num⟩).location ⟨0, 0, 0⟩ = 5) :=
  ⟨⟨by rw [genCameras_length]; norm_num, by rw [genCameras_length]; norm_num⟩,
    c5_ring_major_order 4 1 5 40 ⟨0, 0, 0⟩ 2 (by rw [genCameras_length]; norm_num)
      3 (by rw [genCameras_length]; norm_num)⟩

/-- C8: placement requires an active target object. With no active object
the `assert(tgt_obj)` fires and the operation aborts before creating any
collection or camera (result `none` carries no creations); with a target
the assertion passes and the sphere center is the target's location. -/
theorem c8_requires_active_target (H V : ℕ) (d fov : ℝ) (t : TgtObj) :
    execCamGeneration none H V d fov = none ∧
    execCamGeneration (some t) H V d fov =
      some ⟨PREFIX ++ "__cam_coll", genCameras H V d fov t.location⟩ :=
  ⟨rfl, rfl⟩

/-- C6: clearing removes exactly the cameras and collections whose name
starts with `PREFIX` (for every oracle of failing `do_unlink` removals, so
a failing host removal never escapes), it is idempotent, and on a state
with no matching datablock it changes nothing. -/
theorem c6_clear_removes_idempotent (f1 g1 f2 g2 : String → Bool)
    (d : BlendData) :
    (execCamClear f1 g1 d).cameras
        = d.cameras.filter (fun o => !(startswith o.name PREFIX)) ∧
    (execCamClear f1 g1 d).collections
        = d.collections.filter (fun o => !(startswith o.name PREFIX)) ∧
    (∀ o ∈ (execCamClear f1 g1 d).cameras, startswith o.name PREFIX = false) ∧
    (∀ o ∈ (execCamClear f1 g1 d).collections, startswith o.name PREFIX = false) ∧
    execCamClear f2 g2 (execCamClear f1 g1 d) = execCamClear f1 g1 d ∧
    ((∀ o ∈ d.cameras, startswith o.name PREFIX = false) →
      (∀ o ∈ d.collections, startswith o.name PREFIX = false) →
      execCamClear f1 g1 d = d) := by
  have hrem : ∀ (F : String → Bool) (l : List DataItem),
      remove_by_name_pfx F l PREFIX
        = l.filter (fun o => !(startswith o.name PREFIX)) := by
    intro F l
    exact remove_by_name_pfx_eq F l PREFIX
  have hmem : ∀ (l : List DataItem) (o : DataItem),
      o ∈ l.filter (fun o => !(startswith o.name PREFIX)) →
      startswith o.name PREFIX = false := by
    intro l o ho
    have h2 := (List.mem_filter.mp ho).2
    simpa using h2
  have hidem : ∀ (F G : String → Bool) (l : List DataItem),
      remove_by_name_pfx F (remove_by_name_pfx G l PREFIX) PREFIX
        = remove_by_name_pfx G l PREFIX := by
    intro F G l
    rw [hrem, hrem, List.filter_filter]
    simp
  refine ⟨hrem f1 d.cameras, hrem g1 d.collections, ?_, ?_, ?_, ?_⟩
  · intro o ho
    rw [show (execCamClear f1 g1 d).cameras = remove_by_name_pfx f1 d.cameras PREFIX
          from rfl, hrem] at ho
    exact hmem d.cameras o ho
  · intro o ho
    rw [show (execCamClear f1 g1 d).collections
          = remove_by_name_pfx g1 d.collections PREFIX from rfl, hrem] at ho
    exact hmem d.collections o ho
  · show BlendData.mk _ _ = BlendData.mk _ _
    rw [BlendData.mk.injEq]
    exact ⟨hidem f2 f1 d.cameras, hidem g2 g1 d.collections⟩
  · intro h1 h2
    have e1 : remove_by_name_pfx f1 d.cameras PREFIX = d.cameras := by
      rw [hrem]
      apply List.filter_eq_self.mpr
      intro o ho
      rw [h1 o ho]
      rfl
    have e2 : remove_by_name_pfx g1 d.collections PREFIX = d.collections := by
      rw [hrem]
      apply List.filter_eq_self.mpr
      intro o ho
      rw [h2 o ho]
      rfl
    show BlendData.mk _ _ = d
    rw [e1, e2]

/-- C3: the export reports the "no cameras" error and cancels exactly when
no object's name starts with `BNGP__cam`; in that case it is atomic — no
render call, no written file, no created directory, and the scene (renderer
settings and active-camera selection included) is returned unchanged. -/
theorem c3_no_cameras_atomic (fov : ℝ) (w h : ℕ) (out : String) (st : Scene) :
    ((execRender fov w h out st).status = "CANCELED" ↔
      collect_by_name_pfx st.objects (PREFIX ++ "__cam") = []) ∧
    (collect_by_name_pfx st.objects (PREFIX ++ "__cam") = [] →
      execRender fov w h out st =
        ⟨"CANCELED", [("ERROR", "No camera objects found")], [], [], [],
          none, st⟩) := by
  constructor
  · constructor
    · intro hs
      by_contra hne
      rw [execRender_status_pos fov w h out st hne] at hs
      exact (by decide : ("FINISHED" : String) ≠ "CANCELED") hs
    · intro hc
      rw [execRender_empty fov w h out st hc]
  · intro hc
    exact execRender_empty fov w h out st hc

/-- A one-camera scene used to instantiate the export theorems. -/
def sampleCam : SceneObj :=
  ⟨camName 0, fun _ _ => 0, 0⟩

/-- A scene holding only `sampleCam`, with blank renderer settings. -/
def sampleScene : Scene :=
  ⟨[sampleCam], none, ⟨0, 0, "", "", "", false, ""⟩⟩

theorem collect_sampleScene :
    collect_by_name_pfx sampleScene.objects (PREFIX ++ "__cam") = [sampleCam] := by
  unfold collect_by_name_pfx sampleScene sampleCam
  simp only [List.filter, objName_sceneObj, startswith_camName]

/-- C2: exporting a scene whose prefix-matching cameras number `K ≥ 1`
issues exactly `K` render calls and produces a manifest whose frames list
has length `K` — one entry per collected camera, in collection order, each
holding that camera's world transform — and whose `camera_angle_x` is the
configured FOV converted to radians. -/
theorem c2_export_counts_manifest (fov : ℝ) (w h : ℕ) (out : String)
    (st : Scene) (K : ℕ)
    (hK : (collect_by_name_pfx st.objects (PREFIX ++ "__cam")).length = K)
    (h1 : 1 ≤ K) :
    (execRender fov w h out st).status = "FINISHED" ∧
    (execRender fov w h out st).renders.length = K ∧
    (execRender fov w h out st).manifest
      = some ⟨radians fov,
          (collect_by_name_pfx st.objects (PREFIX ++ "__cam")).map
            (fun o => ⟨pathJoin "./" (o.name ++ ".png"), o.matrix_world⟩)⟩ ∧
    (∀ m, (execRender fov w h out st).manifest = some m →
      m.frames.length = K ∧ m.camera_angle_x = radians fov) := by
  have hne : collect_by_name_pfx st.objects (PREFIX ++ "__cam") ≠ [] := by
    intro h0
    rw [h0] at hK
    simp at hK
    omega
  refine ⟨execRender_status_pos fov w h out st hne, ?_,
    execRender_manifest_pos fov w h out st hne, ?_⟩
  · rw [execRender_renders_pos fov w h out st hne, List.length_map, hK]
  · intro m hm
    rw [execRender_manifest_pos fov w h out st hne] at hm
    obtain rfl := Option.some.inj hm
    exact ⟨by rw [List.length_map, hK], rfl⟩

theorem c2_export_witness :
    ((collect_by_name_pfx sampleScene.objects (PREFIX ++ "__cam")).length = 1 ∧
      (1:ℕ) ≤ 1) ∧
    ((execRender 40 512 512 "/out" sampleScene).status = "FINISHED" ∧
      (execRender 40 512 512 "/out" sampleScene).renders.length = 1 ∧
      (execRender 40 512 512 "/out" sampleScene).manifest
        = some ⟨radians 40,
            (collect_by_name_pfx sampleScene.objects (PREFIX ++ "__cam")).map
              (fun o => ⟨pathJoin "./" (o.name ++ ".png"), o.matrix_world⟩)⟩ ∧
      (∀ m, (execRender 40 512 512 "/out" sampleScene).manifest = some m →
        m.frames.length = 1 ∧ m.camera_angle_x = radians 40)) :=
  ⟨⟨by rw [collect_sampleScene]; rfl, by decide⟩,
    c2_export_counts_manifest 40 512 512 "/out" sampleScene 1
      (by rw [collect_sampleScene]; rfl) (by decide)⟩

/-- C9: a successful export leaves the scene's objects (hence all camera
poses and placement-created objects) unchanged but mutates the active-camera
selection without restoring it: afterwards the active camera is the last
collected camera. -/
theorem c9_active_camera_mutation (fov : ℝ) (w h : ℕ) (out : String)
    (st : Scene)
    (hne : collect_by_name_pfx st.objects (PREFIX ++ "__cam") ≠ []) :
    (execRender fov w h out st).scene.objects = st.objects ∧
    (execRender fov w h out st).scene.camera
      = some ((collect_by_name_pfx st.objects (PREFIX ++ "__cam")).getLast hne).name :=
  ⟨execRender_objects_pos fov w h out st hne,
    execRender_camera_pos fov w h out st hne⟩

theorem c9_active_camera_witness :
    collect_by_name_pfx sampleScene.objects (PREFIX ++ "__cam") ≠ [] ∧
    ((execRender 40 512 512 "/out" sampleScene).scene.objects
        = sampleScene.objects ∧
      (execRender 40 512 512 "/out" sampleScene).scene.camera
        = some ((collect_by_name_pfx sampleScene.objects
            (PREFIX ++ "__cam")).getLast
              (by rw [collect_sampleScene]; exact List.cons_ne_nil sampleCam [])).name) :=
  ⟨by rw [collect_sampleScene]; exact List.cons_ne_nil sampleCam [],
    c9_active_camera_mutation 40 512 512 "/out" sampleScene
      (by rw [collect_sampleScene]; exact List.cons_ne_nil sampleCam [])⟩

theorem collect_mapAngles (g : ℝ → ℝ) (st : Scene) :
    collect_by_name_pfx (mapAngles g st).objects (PREFIX ++ "__cam")
      = (collect_by_name_pfx st.objects (PREFIX ++ "__cam")).map
          (fun o => { o with angle := g o.angle }) := by
  unfold mapAngles collect_by_name_pfx
  rw [List.filter_map]
  rfl

/-- C10: the manifest's `camera_angle_x` is computed solely from the FOV
parameter of the export operator (degrees converted to radians) and is never
read back from the camera objects: rewriting every camera's stored FOV by an
arbitrary function `g` leaves `camera_angle_x` unchanged, equal to
`radians fov`. -/
theorem c10_angle_from_parameter (fov : ℝ) (w h : ℕ) (out : String)
    (st : Scene) (g : ℝ → ℝ)
    (hne : collect_by_name_pfx st.objects (PREFIX ++ "__cam") ≠ []) :
    ∃ m m', (execRender fov w h out st).manifest = some m ∧
      (execRender fov w h out (mapAngles g st)).manifest = some m' ∧
      m.camera_angle_x = radians fov ∧
      m'.camera_angle_x = radians fov ∧
      m.camera_angle_x = m'.camera_angle_x := by
  have hne' : collect_by_name_pfx (mapAngles g st).objects (PREFIX ++ "__cam") ≠ [] := by
    rw [collect_mapAngles]
    intro h0
    exact hne (List.map_eq_nil_iff.mp h0)
  exact ⟨_, _, execRender_manifest_pos fov w h out st hne,
    execRender_manifest_pos fov w h out (mapAngles g st) hne', rfl, rfl, rfl⟩

theorem c10_angle_witness :
    collect_by_name_pfx sampleScene.objects (PREFIX ++ "__cam") ≠ [] ∧
    (∃ m m', (execRender 40 512 512 "/out" sampleScene).manifest = some m ∧
      (execRender 40 512 512 "/out"
          (mapAngles (fun _ => 1) sampleScene)).manifest = some m' ∧
      m.camera_angle_x = radians 40 ∧
      m'.camera_angle_x = radians 40 ∧
      m.camera_angle_x = m'.camera_angle_x) :=
  ⟨by rw [collect_sampleScene]; exact List.cons_ne_nil sampleCam [],
    c10_angle_from_parameter 40 512 512 "/out" sampleScene (fun _ => 1)
      (by rw [collect_sampleScene]; exact List.cons_ne_nil sampleCam [])⟩

/-- C7 (counterexample): the image basename of generated camera index 1000
is `BNGP__cam_1000.png` — the index part has four digits, so it is not of
the claimed form `<prefix>__cam_<3-digit-index>.png`. -/
theorem c7_naming_counterexample :
    ¬ ∃ s : String, s.length = 3 ∧
      camName 1000 ++ ".png" = (PREFIX ++ "__cam_") ++ s ++ ".png" := by
  rintro ⟨s, hlen, heq⟩
  have h := congrArg String.length heq
  simp only [String.length_append] at h
  rw [hlen, (show (camName 1000).length = 14 by decide),
    (show PREFIX.length = 4 by decide),
    (show ("__cam_" : String).length = 6 by decide),
    (show (".png" : String).length = 4 by decide)] at h
  omega

/-- C7 (amended): for an export over the cameras a placement run created
(`mkGenScene`), image `i` is rendered to `<out>/<camName i>.png` where
`camName i` carries the index zero-padded to a minimum of 3 digits (exactly
3 whenever `i < 1000`), and the matching manifest entry's `file_path` is the
image basename behind `./`. -/
theorem c7_amended_file_naming (fov : ℝ) (w h : ℕ) (out : String) (n : ℕ)
    (M : ℕ → Mat4) (a : ℕ → ℝ) (camsel : Option String) (rs : RenderSettings)
    (i : ℕ) (hi : i < n) :
    (execRender fov w h out (mkGenScene n M a camsel rs)).renders[i]?
        = some ⟨camName i, pathJoin out (camName i ++ ".png")⟩ ∧
    (∃ m, (execRender fov w h out (mkGenScene n M a camsel rs)).manifest
          = some m ∧
        m.frames[i]? = some ⟨pathJoin "./" (camName i ++ ".png"), M i⟩) ∧
    pathJoin "./" (camName i ++ ".png") = "./" ++ (camName i ++ ".png") ∧
    3 ≤ (pad3 i).length ∧
    (i < 1000 → (pad3 i).length = 3) := by
  have hcol := collect_mkGenScene n M a camsel rs
  have hne : collect_by_name_pfx (mkGenScene n M a camsel rs).objects
      (PREFIX ++ "__cam") ≠ [] := by
    rw [hcol]
    intro h0
    have hlen0 := congrArg List.length h0
    simp only [mkGenScene, List.length_map, List.length_range, List.length_nil] at hlen0
    omega
  refine ⟨?_, ?_, ?_, three_le_pad3_length i, fun hlt => pad3_length_of_lt i hlt⟩
  · rw [execRender_renders_pos fov w h out _ hne, hcol]
    simp [mkGenScene, List.getElem?_map, List.getElem?_range hi]
  · refine ⟨_, execRender_manifest_pos fov w h out _ hne, ?_⟩
    rw [hcol]
    simp [mkGenScene, List.getElem?_map, List.getElem?_range hi]
  · unfold pathJoin
    rw [if_pos (by decide : ("./" : String).data.getLast? = some '/')]

theorem c7_amended_witness :
    (0:ℕ) < 1 ∧
    ((execRender 40 1 1 "/o" (mkGenScene 1 (fun _ => fun _ _ => 0) (fun _ => 0)
          none ⟨0, 0, "", "", "", false, ""⟩)).renders[0]?
        = some ⟨camName 0, pathJoin "/o" (camName 0 ++ ".png")⟩ ∧
      (∃ m, (execRender 40 1 1 "/o" (mkGenScene 1 (fun _ => fun _ _ => 0)
            (fun _ => 0) none ⟨0, 0, "", "", "", false, ""⟩)).manifest = some m ∧
        m.frames[0]? = some ⟨pathJoin "./" (camName 0 ++ ".png"),
          (fun _ => fun _ _ => 0 : ℕ → Mat4) 0⟩) ∧
      pathJoin "./" (camName 0 ++ ".png") = "./" ++ (camName 0 ++ ".png") ∧
      3 ≤ (pad3 0).length ∧
      (0 < 1000 → (pad3 0).length = 3)) :=
  ⟨by decide, c7_amended_file_naming 40 1 1 "/o" 1 (fun _ => fun _ _ => 0)
    (fun _ => 0) none ⟨0, 0, "", "", "", false, ""⟩ 0 (by decide)⟩
